import Mathlib

/-!
Shallow embedding of the Hartkey polling coordinator
(src/custom_components/hartkey/coordinator.py and button.py).

JSON payloads delivered by the vendor API are modelled by the inductive
type `JVal`.  Python dictionaries are association lists whose keys are
unique; `JVal.get` models `dict.get(key)` (returning `none` both for a
missing key and for a receiver that is not a dictionary — every call
site in the source either checks `isinstance(x, dict)` first or receives
values already known to be dictionaries).  Python truthiness is `truthy`,
and `str(...)` conversion is `pyStr`.

The network is external input: the outcome of each HTTP request is a
parameter of the modelled function (`DevOutcome` for the devices request,
`EvOutcome` for the events request).  Exceptions are modelled by
`Except`/`PyErr` where the source lets them escape, and are absorbed
into ordinary return values where the source catches them.
-/

namespace Hartkey

/-- JSON values as produced by response.json() in the source. -/
inductive JVal where
  | null : JVal
  | bool : Bool → JVal
  | num : Int → JVal
  | str : String → JVal
  | arr : List JVal → JVal
  | obj : List (String × JVal) → JVal

/-- Models Python dict.get(k): first value bound to k, none when the key is
absent or the receiver is not a dictionary. -/
def JVal.get : JVal → String → Option JVal
  | .obj kvs, k => kvs.lookup k
  | _, _ => none

/-- True exactly on JSON objects (Python dictionaries). -/
def JVal.isObj : JVal → Bool
  | .obj _ => true
  | _ => false

/-- Python truthiness of a JSON value. -/
def truthy : JVal → Bool
  | .null => false
  | .bool b => b
  | .num n => decide (n ≠ 0)
  | .str s => decide (s ≠ "")
  | .arr xs => !xs.isEmpty
  | .obj kvs => !kvs.isEmpty

mutual
/-- Python repr() of a JSON value (strings quoted, containers rendered
element-wise), used by str() on containers. -/
def pyRepr : JVal → String
  | .null => "None"
  | .bool true => "True"
  | .bool false => "False"
  | .num n => toString n
  | .str s => "\x27" ++ s ++ "\x27"
  | .arr xs => "[" ++ pyReprList xs ++ "]"
  | .obj kvs => "\x7b" ++ pyReprObj kvs ++ "\x7d"

/-- Comma-separated repr of list elements. -/
def pyReprList : List JVal → String
  | [] => ""
  | [x] => pyRepr x
  | x :: xs => pyRepr x ++ ", " ++ pyReprList xs

/-- Comma-separated repr of dictionary entries. -/
def pyReprObj : List (String × JVal) → String
  | [] => ""
  | [(k, v)] => "\x27" ++ k ++ "\x27: " ++ pyRepr v
  | (k, v) :: kvs => "\x27" ++ k ++ "\x27: " ++ pyRepr v ++ ", " ++ pyReprObj kvs
end

/-- Python str() of a JSON value: like repr, but a string converts to
itself unquoted. -/
def pyStr : JVal → String
  | .str s => s
  | v => pyRepr v

/-! Constants from const.py. -/

def DEVICE_TYPE_INTERCOM : String := "intercom"

def DEVICE_TYPE_GATE : String := "gate"

/-- Python exceptions that can escape the fetch helpers, split by the
handler that would catch them in _async_update_data: aiohttp.ClientError,
asyncio.TimeoutError, UpdateFailed (raised deliberately by the source) and
any other exception. -/
inductive PyErr where
  | clientError : PyErr
  | timeoutErr : PyErr
  | updateFailed : String → PyErr
  | otherExn : PyErr

/-- Outcome of the devices HTTP request, supplied by the environment. A
status outcome carries the already-decoded JSON body; a request whose body
fails to decode surfaces as clientError or otherExn instead. -/
inductive DevOutcome where
  | clientError : DevOutcome
  | timeout : DevOutcome
  | otherExn : DevOutcome
  | status : Nat → JVal → DevOutcome

/-- Outcome of the events HTTP request, supplied by the environment. -/
inductive EvOutcome where
  | timeout : EvOutcome
  | otherExn : EvOutcome
  | status : Nat → JVal → EvOutcome

/-! Device parsing, coordinator.py lines 151-169. -/

/-- Models coordinator.py lines 158-161: the nested data.devices list when
the body has the expected shape, otherwise the empty list the source
initialised at line 156. -/
def rawDevices (data : JVal) : List JVal :=
  match data.get "data" with
  | some (.obj dkvs) =>
    match (JVal.obj dkvs).get "devices" with
    | some (.arr ds) => ds
    | _ => []
  | _ => []

/-- Models the membership test on line 103 and line 165 of coordinator.py,
device.get of device_type being in the intercom/gate list: only a string
value equal to one of the two constants passes. -/
def deviceTypeOk (d : JVal) : Bool :=
  match d.get "device_type" with
  | some (.str t) => t == DEVICE_TYPE_INTERCOM || t == DEVICE_TYPE_GATE
  | _ => false

/-- Predicate of the list comprehension on lines 163-166. -/
def isValidDevice (d : JVal) : Bool :=
  d.isObj && deviceTypeOk d

/-- Models _parse_devices (coordinator.py lines 151-169): a non-dictionary
body raises UpdateFailed; otherwise the nested device list (empty when the
shape is unexpected) filtered to dictionaries of type intercom or gate. -/
def parse_devices (data : JVal) : Except PyErr (List JVal) :=
  if data.isObj then .ok ((rawDevices data).filter isValidDevice)
  else .error (.updateFailed "Expected dictionary response")

/-- Models _fetch_devices (coordinator.py lines 78-92) given the request
outcome: 200 parses the body, 401 raises UpdateFailed for invalid
authentication, any other status raises a generic UpdateFailed; network
errors, timeouts and other exceptions escape as themselves. -/
def fetch_devices (o : DevOutcome) : Except PyErr (List JVal) :=
  match o with
  | .status 200 body => parse_devices body
  | .status 401 _ => .error (.updateFailed "Invalid authentication")
  | .status code _ => .error (.updateFailed ("API error: " ++ toString code))
  | .clientError => .error .clientError
  | .timeout => .error .timeoutErr
  | .otherExn => .error .otherExn

/-! Event parsing and fetching, coordinator.py lines 94-149 and 171-204. -/

/-- Models coordinator.py lines 100-104: the string forms of the ids of
devices that have a truthy id and an intercom/gate device_type. The
devices handed to this loop come from _parse_devices and are always
dictionaries, so modelling dict.get by JVal.get is exact here. -/
def eventDeviceIds (devices : List JVal) : List String :=
  devices.filterMap fun d =>
    match d.get "id" with
    | some v => if truthy v && deviceTypeOk d then some (pyStr v) else none
    | none => none

/-- Models coordinator.py lines 182-184: the nested data.items list when
present and a list, otherwise the empty list from line 180. -/
def rawEvents (data : JVal) : List JVal :=
  match data.get "data" with
  | some (.obj dkvs) =>
    match (JVal.obj dkvs).get "items" with
    | some (.arr es) => es
    | _ => []
  | _ => []

/-- The grouping key of one event, per coordinator.py lines 190-193: only
dictionary events with a truthy device_id are kept, keyed by the str()
conversion of the id. -/
def eventKey (e : JVal) : Option String :=
  if e.isObj then
    match e.get "device_id" with
    | some v => if truthy v then some (pyStr v) else none
    | none => none
  else none

/-- Appending one event to the bucket of key k in an insertion-ordered
association list, models lines 194-196: an existing bucket grows at its
end, a new key is created after all existing keys (Python dictionaries
preserve insertion order). -/
def addEvent (m : List (String × List JVal)) (k : String) (e : JVal) :
    List (String × List JVal) :=
  match m with
  | [] => [(k, [e])]
  | (k0, es) :: rest =>
    if k0 = k then (k0, es ++ [e]) :: rest else (k0, es) :: addEvent rest k e

/-- The loop of coordinator.py lines 189-197 over the event list. -/
def groupEvents : List JVal → List (String × List JVal) → List (String × List JVal)
  | [], m => m
  | e :: es, m =>
    match eventKey e with
    | some k => groupEvents es (addEvent m k e)
    | none => groupEvents es m

/-- Models _parse_events (coordinator.py lines 171-204): a non-dictionary
body yields the empty mapping, otherwise the events found in the body are
grouped by the string form of their device_id. -/
def parse_events (data : JVal) : List (String × List JVal) :=
  if data.isObj then groupEvents (rawEvents data) [] else []

/-- The response handling of _fetch_events (coordinator.py lines 126-149):
only a 200 status is parsed; a 400 validation error, any other status, a
timeout or any other exception all yield the empty mapping. -/
def eventsResponse (o : EvOutcome) : List (String × List JVal) :=
  match o with
  | .status 200 body => parse_events body
  | .status _ _ => []
  | .timeout => []
  | .otherExn => []

/-- Models _fetch_events (coordinator.py lines 94-149). The Bool records
whether the network request of lines 127-129 was issued: the early returns
on an empty device list (line 96) and on an empty id list (line 106) skip
it. The function is total: every exception of the request is caught by the
source and turned into the empty mapping. -/
def fetch_events (devices : List JVal) (o : EvOutcome) :
    Bool × List (String × List JVal) :=
  if devices.isEmpty then (false, [])
  else if (eventDeviceIds devices).isEmpty then (false, [])
  else (true, eventsResponse o)

/-! The coordinator cycle, coordinator.py lines 21-76. -/

/-- The result dictionary built on lines 48-51, with its devices and
events entries. -/
structure Snapshot where
  devices : List JVal
  events : List (String × List JVal)

/-- The mutable coordinator attributes touched by a refresh cycle:
self.devices (line 33) and self._last_successful_data (line 35). A stored
snapshot dictionary always has two entries, so the truthiness tests on
lines 61, 67 and 73 coincide with the Option test. -/
structure CoordState where
  devices : List JVal
  lastSuccessfulData : Option Snapshot

/-- How the three exception handlers of lines 59-76 rewrap an escaped
exception when no fallback data exists. -/
def wrapErr : PyErr → PyErr
  | .clientError => .updateFailed "Error communicating with API"
  | .timeoutErr => .updateFailed "Timeout communicating with API"
  | .updateFailed m => .updateFailed ("Unexpected error: " ++ m)
  | .otherExn => .updateFailed "Unexpected error"

/-- Models _async_update_data (coordinator.py lines 37-76) for one cycle,
given the outcomes of the two requests. On success the fresh result is
stored and returned; on any escaped exception the retained last successful
data is returned unchanged when present (lines 61-63, 67-69, 73-75), and
otherwise UpdateFailed is raised (lines 64, 70, 76). self.devices is
assigned on line 45 only after a successful device fetch, and
_fetch_events never raises, so the success branch updates both fields
together. -/
def async_update_data (st : CoordState) (dOut : DevOutcome) (eOut : EvOutcome) :
    CoordState × Except PyErr Snapshot :=
  match fetch_devices dOut with
  | .ok devices =>
    let events := (fetch_events devices eOut).2
    let result : Snapshot := ⟨devices, events⟩
    (⟨devices, some result⟩, .ok result)
  | .error e =>
    match st.lastSuccessfulData with
    | some d => (st, .ok d)
    | none => (st, .error (wrapErr e))

/-! The button platform actionability test, button.py lines 22-31. -/

/-- Models device.get with default of an empty list on line 27 of
button.py, extracting the capability list. A capabilities value that is
not a list would make the for loop of line 28 fail on its elements; no
such payload reaches this code, and it is modelled as an empty list. -/
def getCapabilities (d : JVal) : List JVal :=
  match d.get "capabilities" with
  | some (.arr cs) => cs
  | _ => []

/-- The test of line 29 of button.py on one capability: its name equals
the string open_door and its setup field is identically the boolean True. -/
def capOpenDoorReady (c : JVal) : Bool :=
  (match c.get "name" with
   | some (.str n) => n == "open_door"
   | _ => false)
  &&
  (match c.get "setup" with
   | some (.bool true) => true
   | _ => false)

/-- Models _is_valid_intercom (button.py lines 22-31): false unless the
device_type is intercom or gate, then true exactly when some capability
passes the test of line 29. -/
def is_valid_intercom (d : JVal) : Bool :=
  if !deviceTypeOk d then false
  else (getCapabilities d).any capOpenDoorReady

/-! Observation helper and concrete payloads used by the theorems below. -/

/-- Lookup of the bucket stored under a key in the grouped-events
association list (Python dictionary indexing, keys being unique). -/
def findGroup : List (String × List JVal) → String → Option (List JVal)
  | [], _ => none
  | (k0, es) :: rest, k => if k0 = k then some es else findGroup rest k

/-- An arbitrary retained snapshot. -/
def snap0 : Snapshot := ⟨[], []⟩

/-- A coordinator state holding a previously successful snapshot. -/
def st0 : CoordState := ⟨[], some snap0⟩

/-- A coordinator state before any successful cycle. -/
def stNone : CoordState := ⟨[], none⟩

/-- An event whose device_id is the number 5. -/
def ev_num : JVal := .obj [("device_id", .num 5), ("event_type", .str "a")]

/-- An event whose device_id is the string 5. -/
def ev_str : JVal := .obj [("device_id", .str "5"), ("event_type", .str "b")]

/-- An events payload mixing a numeric and a string device_id that
stringify identically. -/
def mixedPayload : JVal := .obj [("data", .obj [("items", .arr [ev_num, ev_str])])]

/-- An event with a numeric device_id. -/
def ev7 : JVal := .obj [("device_id", .num 7)]

/-- An events payload holding only ev7. -/
def numPayload : JVal := .obj [("data", .obj [("items", .arr [ev7])])]

/-- A valid intercom device record. -/
def d1 : JVal := .obj [("id", .str "a"), ("device_type", .str "intercom")]

/-- A device record of an unsupported type. -/
def d2 : JVal := .obj [("id", .str "b"), ("device_type", .str "camera")]

/-- A devices payload holding one valid device, one invalid-type device
and one non-dictionary entry. -/
def devPayload : JVal := .obj [("data", .obj [("devices", .arr [d1, d2, .str "junk"])])]

/-- A device record of an unsupported type with a truthy id. -/
def devCam : JVal := .obj [("id", .str "x"), ("device_type", .str "camera")]

/-- An open_door capability carrying enabled true but no setup field. -/
def capEnabled : JVal := .obj [("name", .str "open_door"), ("enabled", .bool true)]

/-- An intercom whose open_door capability says enabled true. -/
def devEnabledOnly : JVal :=
  .obj [("device_type", .str "intercom"), ("capabilities", .arr [capEnabled])]

/-- An open_door capability carrying setup true. -/
def capSetup : JVal := .obj [("name", .str "open_door"), ("setup", .bool true)]

/-- A gate whose open_door capability says setup true. -/
def devSetup : JVal :=
  .obj [("device_type", .str "gate"), ("capabilities", .arr [capSetup])]

/-- A device of an unsupported type carrying a setup-true open_door
capability. -/
def devWrongType : JVal :=
  .obj [("device_type", .str "camera"), ("capabilities", .arr [capSetup])]

/-! Helper lemmas about the embedded functions. -/

/-- The device_type membership test passes exactly on the two supported
string values. -/
theorem deviceTypeOk_iff (d : JVal) :
    deviceTypeOk d = true ↔
      d.get "device_type" = some (.str DEVICE_TYPE_INTERCOM) ∨
      d.get "device_type" = some (.str DEVICE_TYPE_GATE) := by
  unfold deviceTypeOk
  cases hg : d.get "device_type" with
  | none => simp
  | some v => cases v <;> simp [DEVICE_TYPE_INTERCOM, DEVICE_TYPE_GATE]

/-- The capability test of button.py line 29 passes exactly on a
dictionary with name open_door and setup identically true. -/
theorem capOpenDoorReady_iff (c : JVal) :
    capOpenDoorReady c = true ↔
      c.get "name" = some (.str "open_door") ∧
      c.get "setup" = some (.bool true) := by
  unfold capOpenDoorReady
  have hsetup :
      ((match c.get "setup" with
        | some (JVal.bool true) => true
        | _ => false) = true) ↔ c.get "setup" = some (.bool true) := by
    cases hs : c.get "setup" with
    | none => simp
    | some w =>
      cases w with
      | null => simp
      | bool b => cases b <;> simp
      | num n => simp
      | str s => simp
      | arr xs => simp
      | obj kvs => simp
  cases hn : c.get "name" with
  | none => simp
  | some v =>
    cases v with
    | null => simp
    | bool b => simp
    | num n => simp
    | str s => simp [hsetup]
    | arr xs => simp
    | obj kvs => simp

/-- A successful _parse_devices run happens only on a dictionary body and
returns the filtered nested list. -/
theorem parse_devices_ok_eq (data : JVal) (ds : List JVal)
    (h : parse_devices data = .ok ds) :
    data.isObj = true ∧ ds = (rawDevices data).filter isValidDevice := by
  cases hio : data.isObj with
  | false => simp [parse_devices, hio] at h
  | true =>
    simp [parse_devices, hio] at h
    exact ⟨rfl, h.symm⟩

/-- A non-dictionary events body carries no event items. -/
theorem rawEvents_not_obj (data : JVal) (h : data.isObj = false) :
    rawEvents data = [] := by
  cases data <;> simp_all [JVal.isObj, rawEvents, JVal.get]

/-- Appending an event to its own key extends that bucket at its end. -/
theorem findGroup_addEvent_self (m : List (String × List JVal)) (k : String) (e : JVal) :
    findGroup (addEvent m k e) k = some (((findGroup m k).getD []) ++ [e]) := by
  induction m with
  | nil => simp [addEvent, findGroup]
  | cons p rest ih =>
    obtain ⟨k0, es⟩ := p
    by_cases h : k0 = k
    · subst h; simp [addEvent, findGroup]
    · simp [addEvent, findGroup, h, ih]

/-- Appending an event to one key leaves every other bucket unchanged. -/
theorem findGroup_addEvent_ne (m : List (String × List JVal)) (k k1 : String)
    (e : JVal) (h : k1 ≠ k) :
    findGroup (addEvent m k e) k1 = findGroup m k1 := by
  induction m with
  | nil => simp [addEvent, findGroup, Ne.symm h]
  | cons p rest ih =>
    obtain ⟨k0, es⟩ := p
    by_cases h0 : k0 = k
    · subst h0; simp [addEvent, findGroup, Ne.symm h]
    · by_cases h1 : k0 = k1 <;> simp [addEvent, findGroup, h0, h1, ih, h]

/-- Grouping a list of events extends an already-present bucket by the
events of that key, in their list order. -/
theorem groupEvents_find_some (es : List JVal) :
    ∀ (m : List (String × List JVal)) (k : String) (l : List JVal),
      findGroup m k = some l →
      findGroup (groupEvents es m) k =
        some (l ++ es.filter fun e => eventKey e == some k) := by
  induction es with
  | nil => intro m k l h; simp [groupEvents, h]
  | cons e rest ih =>
    intro m k l h
    cases hk : eventKey e with
    | none =>
      have hpe : (eventKey e == some k) = false := by simp [hk]
      simp [groupEvents, hk, List.filter_cons, hpe, ih m k l h]
    | some k1 =>
      by_cases hkk : k1 = k
      · subst hkk
        have h2 : findGroup (addEvent m k1 e) k1 = some (l ++ [e]) := by
          rw [findGroup_addEvent_self]; simp [h]
        have h3 := ih (addEvent m k1 e) k1 (l ++ [e]) h2
        have hpe : (eventKey e == some k1) = true := by simp [hk]
        simp [groupEvents, hk, List.filter_cons, hpe, h3]
      · have h2 : findGroup (addEvent m k1 e) k = some l := by
          rw [findGroup_addEvent_ne m k1 k e (Ne.symm hkk)]; exact h
        have hpe : (eventKey e == some k) = false := by simp [hk, hkk]
        simp [groupEvents, hk, hkk, List.filter_cons, hpe,
          ih (addEvent m k1 e) k l h2]

/-- Grouping a list of events creates, for a key not yet present, exactly
the bucket of events carrying that key, in their list order. -/
theorem groupEvents_find_none (es : List JVal) :
    ∀ (m : List (String × List JVal)) (k : String),
      findGroup m k = none →
      findGroup (groupEvents es m) k =
        (if (es.filter fun e => eventKey e == some k).isEmpty then none
         else some (es.filter fun e => eventKey e == some k)) := by
  induction es with
  | nil => intro m k h; simp [groupEvents, h]
  | cons e rest ih =>
    intro m k h
    cases hk : eventKey e with
    | none =>
      have hpe : (eventKey e == some k) = false := by simp [hk]
      simp [groupEvents, hk, List.filter_cons, hpe, ih m k h]
    | some k1 =>
      by_cases hkk : k1 = k
      · subst hkk
        have h2 : findGroup (addEvent m k1 e) k1 = some [e] := by
          rw [findGroup_addEvent_self, h]; rfl
        have h3 := groupEvents_find_some rest (addEvent m k1 e) k1 [e] h2
        have hpe : (eventKey e == some k1) = true := by simp [hk]
        simp [groupEvents, hk, List.filter_cons, hpe, h3]
      · have h2 : findGroup (addEvent m k1 e) k = none := by
          rw [findGroup_addEvent_ne m k1 k e (Ne.symm hkk)]; exact h
        have hpe : (eventKey e == some k) = false := by simp [hk, hkk]
        simp [groupEvents, hk, hkk, List.filter_cons, hpe,
          ih (addEvent m k1 e) k h2]

/-- The bucket stored under any key of a parsed events mapping is exactly
the list of payload events whose key matches, in payload order. -/
theorem parse_events_find (data : JVal) (k : String) :
    findGroup (parse_events data) k =
      (if ((rawEvents data).filter fun e => eventKey e == some k).isEmpty then none
       else some ((rawEvents data).filter fun e => eventKey e == some k)) := by
  unfold parse_events
  cases hio : data.isObj with
  | true => simp [groupEvents_find_none (rawEvents data) [] k rfl]
  | false => simp [rawEvents_not_obj data hio, findGroup]

/-- Appending an event either reuses an existing key or adds the key at
the end. -/
theorem addEvent_keys (m : List (String × List JVal)) (k : String) (e : JVal) :
    (addEvent m k e).map Prod.fst =
      if k ∈ m.map Prod.fst then m.map Prod.fst else m.map Prod.fst ++ [k] := by
  induction m with
  | nil => simp [addEvent]
  | cons p rest ih =>
    obtain ⟨k0, es⟩ := p
    by_cases h : k0 = k
    · subst h; simp [addEvent]
    · by_cases h1 : k ∈ rest.map Prod.fst <;>
        simp [addEvent, h, ih, h1, List.mem_cons, Ne.symm h]

/-- Appending an event preserves uniqueness of the keys. -/
theorem addEvent_keys_nodup (m : List (String × List JVal)) (k : String) (e : JVal)
    (h : (m.map Prod.fst).Nodup) : ((addEvent m k e).map Prod.fst).Nodup := by
  rw [addEvent_keys]
  by_cases hk : k ∈ m.map Prod.fst
  · simpa [hk] using h
  · simp [hk, List.nodup_append, h, List.disjoint_singleton]

/-- Grouping preserves uniqueness of the keys. -/
theorem groupEvents_keys_nodup (es : List JVal) :
    ∀ m : List (String × List JVal), (m.map Prod.fst).Nodup →
      ((groupEvents es m).map Prod.fst).Nodup := by
  induction es with
  | nil => intro m h; simpa [groupEvents] using h
  | cons e rest ih =>
    intro m h
    cases hk : eventKey e with
    | none => simpa [groupEvents, hk] using ih m h
    | some k1 => simpa [groupEvents, hk] using ih _ (addEvent_keys_nodup m k1 e h)

/-- A parsed events mapping never repeats a key. -/
theorem parse_events_keys_nodup (data : JVal) :
    ((parse_events data).map Prod.fst).Nodup := by
  unfold parse_events
  cases hio : data.isObj with
  | true => simpa using groupEvents_keys_nodup (rawEvents data) [] (by simp)
  | false => simp

/-- An event that received a grouping key is a dictionary with a present,
truthy device_id whose string conversion is that key. -/
theorem eventKey_eq_some (e : JVal) (k : String) (h : eventKey e = some k) :
    e.isObj = true ∧
      ∃ v, e.get "device_id" = some v ∧ truthy v = true ∧ pyStr v = k := by
  unfold eventKey at h
  split at h
  · rename_i hio
    split at h
    · rename_i v hv
      split at h
      · rename_i ht
        exact ⟨hio, v, hv, ht, Option.some.inj h⟩
      · exact absurd h (by simp)
    · exact absurd h (by simp)
  · exact absurd h (by simp)

/-! Claim theorems. -/

/-- C1: every snapshot returned by a refresh cycle is either built wholly
from the device and event fetches of that cycle, or is the retained last
successful snapshot returned verbatim; in particular, after a cycle whose
device fetch fails while a prior snapshot exists, the cycle returns that
exact prior snapshot and leaves the coordinator state unchanged. -/
theorem update_snapshot_atomic (st : CoordState) (dOut : DevOutcome) (eOut : EvOutcome) :
    (∀ s, (async_update_data st dOut eOut).2 = .ok s →
        (∃ devs, fetch_devices dOut = .ok devs ∧
          s = ⟨devs, (fetch_events devs eOut).2⟩) ∨
        st.lastSuccessfulData = some s)
    ∧ (∀ e snap, fetch_devices dOut = .error e →
        st.lastSuccessfulData = some snap →
        async_update_data st dOut eOut = (st, .ok snap)) := by
  cases hdev : fetch_devices dOut with
  | ok devs =>
    constructor
    · intro s hs
      simp only [async_update_data, hdev] at hs
      exact Or.inl ⟨devs, rfl, (Except.ok.inj hs).symm⟩
    · intro e snap he _
      simp [hdev] at he
  | error e0 =>
    cases hlast : st.lastSuccessfulData with
    | some d =>
      constructor
      · intro s hs
        simp only [async_update_data, hdev, hlast] at hs
        exact Or.inr (congrArg some (Except.ok.inj hs))
      · intro e snap he hsnap
        have hd := Option.some.inj hsnap
        subst hd
        simp [async_update_data, hdev, hlast]
    | none =>
      constructor
      · intro s hs
        simp only [async_update_data, hdev, hlast] at hs
        exact absurd hs (by simp)
      · intro e snap he hsnap
        exact absurd hsnap (by simp)

/-- C1 witness: a cycle hit by a network error returns the retained
snapshot and state unchanged. -/
theorem update_snapshot_atomic_w :
    async_update_data st0 .clientError .timeout = (st0, .ok snap0) :=
  (update_snapshot_atomic st0 .clientError .timeout).2 PyErr.clientError snap0 rfl rfl

/-- C2 counterexample: with a retained prior snapshot, a cycle whose
device fetch returns HTTP 401 does not surface any failure; the broad
exception handler returns the last-good snapshot, absorbing the
authentication error. -/
theorem auth_fallback_cex :
    async_update_data st0 (.status 401 .null) .timeout = (st0, .ok snap0) := rfl

/-- C2 amended: a 401 on the device fetch raises an authentication
UpdateFailed inside the fetch, but the cycle surfaces it only when no
prior successful snapshot is retained; otherwise the last-good-snapshot
fallback absorbs it exactly like a network or timeout error. -/
theorem auth_error_surfacing (b : JVal) (st : CoordState) (eOut : EvOutcome) :
    fetch_devices (.status 401 b) = .error (.updateFailed "Invalid authentication")
    ∧ (st.lastSuccessfulData = none →
        (async_update_data st (.status 401 b) eOut).2 =
          .error (.updateFailed "Unexpected error: Invalid authentication"))
    ∧ (∀ snap, st.lastSuccessfulData = some snap →
        (async_update_data st (.status 401 b) eOut).2 = .ok snap) := by
  have h401 : fetch_devices (.status 401 b) =
      .error (.updateFailed "Invalid authentication") := rfl
  refine ⟨h401, ?_, ?_⟩
  · intro h
    simp [async_update_data, h401, h, wrapErr]
  · intro snap h
    simp [async_update_data, h401, h]

/-- C2 amended witness: the 401 cycle fails on a fresh coordinator and is
absorbed on one holding a prior snapshot. -/
theorem auth_error_surfacing_w :
    (async_update_data stNone (.status 401 .null) .timeout).2 =
      .error (.updateFailed "Unexpected error: Invalid authentication")
    ∧ (async_update_data st0 (.status 401 .null) .timeout).2 = .ok snap0 :=
  ⟨(auth_error_surfacing .null stNone .timeout).2.1 rfl,
   (auth_error_surfacing .null st0 .timeout).2.2 snap0 rfl⟩

/-- C3: a refresh cycle raises a failure exactly when the device fetch
fails and no prior successful snapshot is retained, and in that case it
raises the wrapped error leaving the state (hence the absent current
snapshot) unchanged. -/
theorem hard_failure_only_first_cycle (st : CoordState) (dOut : DevOutcome)
    (eOut : EvOutcome) :
    ((∃ e, (async_update_data st dOut eOut).2 = .error e) ↔
      ((∃ e, fetch_devices dOut = .error e) ∧ st.lastSuccessfulData = none))
    ∧ (∀ e, fetch_devices dOut = .error e → st.lastSuccessfulData = none →
        async_update_data st dOut eOut = (st, .error (wrapErr e))) := by
  cases hdev : fetch_devices dOut with
  | ok devs =>
    constructor
    · simp [async_update_data, hdev]
    · intro e he
      simp [hdev] at he
  | error e0 =>
    cases hlast : st.lastSuccessfulData with
    | some d =>
      constructor
      · simp [async_update_data, hdev, hlast]
      · intro e he hnone
        exact absurd hnone (by simp)
    | none =>
      constructor
      · simp [async_update_data, hdev, hlast]
      · intro e he _
        have h0 := Except.error.inj he
        subst h0
        simp [async_update_data, hdev, hlast]

/-- C3 witness: a timeout on the very first cycle raises UpdateFailed and
leaves the empty state unchanged. -/
theorem hard_failure_only_first_cycle_w :
    async_update_data stNone .timeout .timeout =
      (stNone, .error (.updateFailed "Timeout communicating with API")) :=
  (hard_failure_only_first_cycle stNone .timeout .timeout).2 PyErr.timeoutErr rfl rfl

/-- C9: called with an empty device list, or one from which no valid
device id can be extracted, the event fetch issues no network request and
returns the empty mapping. -/
theorem fetch_events_no_call (devs : List JVal) (o : EvOutcome)
    (h : devs = [] ∨ eventDeviceIds devs = []) :
    fetch_events devs o = (false, []) := by
  rcases h with h | h
  · subst h; rfl
  · cases devs with
    | nil => rfl
    | cons d ds => simp [fetch_events, h]

/-- C9 witness: the empty list and a list holding only an unsupported
device type both short-circuit the event fetch. -/
theorem fetch_events_no_call_w :
    fetch_events [] .timeout = (false, [])
    ∧ fetch_events [devCam] .otherExn = (false, []) :=
  ⟨fetch_events_no_call [] .timeout (Or.inl rfl),
   fetch_events_no_call [devCam] .otherExn (Or.inr rfl)⟩

/-- C4: when the device-id set is non-empty the event fetch issues its
request, and every failing outcome — timeout, any other exception, a
non-200 status (including the 400 validation error) or a 200 with a
non-mapping body — yields the empty mapping rather than an error; the
modelled function is total, so no failure can escape to the cycle. -/
theorem event_failures_absorbed (devs : List JVal) (o : EvOutcome)
    (hids : (eventDeviceIds devs).isEmpty = false)
    (hfail : o = .timeout ∨ o = .otherExn ∨
      (∃ c b, o = .status c b ∧ c ≠ 200) ∨
      (∃ b, o = .status 200 b ∧ b.isObj = false)) :
    fetch_events devs o = (true, []) := by
  have hne : devs.isEmpty = false := by
    cases devs with
    | nil => simp [eventDeviceIds] at hids
    | cons d ds => rfl
  have hresp : eventsResponse o = [] := by
    rcases hfail with h | h | ⟨c, b, h, hc⟩ | ⟨b, h, hb⟩
    · subst h; rfl
    · subst h; rfl
    · subst h
      unfold eventsResponse
      split
      · rename_i heq
        exact absurd (congrArg (fun x => match x with
          | EvOutcome.status c _ => c
          | _ => 0) heq) hc
      all_goals rfl
    · subst h
      simp [eventsResponse, parse_events, hb]
  simp [fetch_events, hne, hids, hresp]

/-- C4 witness: one valid device and a 500 response yield the empty
mapping after an issued request. -/
theorem event_failures_absorbed_w :
    fetch_events [d1] (.status 500 .null) = (true, []) :=
  event_failures_absorbed [d1] (.status 500 .null) rfl
    (Or.inr (Or.inr (Or.inl ⟨500, .null, rfl, by decide⟩)))

/-- C5 counterexample: a 200 response whose body is a JSON array, not a
mapping, makes the device fetch raise UpdateFailed instead of yielding an
empty device sequence. -/
theorem parse_devices_non_mapping_cex :
    fetch_devices (.status 200 (.arr [])) =
      .error (.updateFailed "Expected dictionary response") := rfl

/-- C5 amended: on HTTP 200, a mapping body that lacks the expected
nested data.devices list yields an empty device sequence, while a body
that is not a mapping raises UpdateFailed and hard-fails the fetch. -/
theorem parse_devices_defensive (data : JVal) :
    (data.isObj = false →
      parse_devices data = .error (.updateFailed "Expected dictionary response"))
    ∧ ((∀ dkvs, data.get "data" = some (.obj dkvs) →
          ∀ l, (JVal.obj dkvs).get "devices" ≠ some (.arr l)) →
        data.isObj = true → parse_devices data = .ok []) := by
  constructor
  · intro h
    simp [parse_devices, h]
  · intro hmiss hobj
    have hraw : rawDevices data = [] := by
      unfold rawDevices
      split
      · rename_i dkvs hd
        split
        · rename_i ds hdev
          exact absurd hdev (hmiss dkvs hd ds)
        · rfl
      · rfl
    simp [parse_devices, hobj, hraw]

/-- C5 amended witness: a non-mapping body raises, and a mapping body
without the nested list yields the empty sequence. -/
theorem parse_devices_defensive_w :
    parse_devices (.arr []) = .error (.updateFailed "Expected dictionary response")
    ∧ parse_devices (.obj []) = .ok [] :=
  ⟨(parse_devices_defensive (.arr [])).1 rfl,
   (parse_devices_defensive (.obj [])).2 (fun _ h => Option.noConfusion h) rfl⟩

/-- C6: every device retained by the parser has device_type intercom or
gate, the retained devices form a sublist of the payload list (order
preserved), and every payload dictionary of a supported type is
retained. -/
theorem parse_devices_filter_spec (data : JVal) (ds : List JVal)
    (h : parse_devices data = .ok ds) :
    List.Sublist ds (rawDevices data)
    ∧ (∀ d ∈ ds, d.get "device_type" = some (.str DEVICE_TYPE_INTERCOM) ∨
        d.get "device_type" = some (.str DEVICE_TYPE_GATE))
    ∧ (∀ d ∈ rawDevices data, d.isObj = true →
        (d.get "device_type" = some (.str DEVICE_TYPE_INTERCOM) ∨
         d.get "device_type" = some (.str DEVICE_TYPE_GATE)) → d ∈ ds) := by
  obtain ⟨hobj, hds⟩ := parse_devices_ok_eq data ds h
  subst hds
  refine ⟨List.filter_sublist _, ?_, ?_⟩
  · intro d hd
    have hv := (List.mem_filter.mp hd).2
    have := (Bool.and_eq_true _ _).mp hv
    exact (deviceTypeOk_iff d).mp this.2
  · intro d hd hobj2 htype
    exact List.mem_filter.mpr
      ⟨hd, by simp [isValidDevice, hobj2, (deviceTypeOk_iff d).mpr htype]⟩

/-- C6 witness: the synthetic payload keeps exactly its valid intercom,
whose type is one of the two supported strings. -/
theorem parse_devices_filter_spec_w :
    d1.get "device_type" = some (.str DEVICE_TYPE_INTERCOM) ∨
      d1.get "device_type" = some (.str DEVICE_TYPE_GATE) :=
  (parse_devices_filter_spec devPayload [d1] rfl).2.1 d1 (List.mem_singleton.mpr rfl)

/-- C7 counterexample: an intercom whose open_door capability carries
enabled true (but no setup field) is judged not actionable, a device of
an unsupported type is judged not actionable even with a setup-true
open_door capability, and a gate with a setup-true open_door capability
is judged actionable — the field the code tests is setup, not enabled. -/
theorem open_capability_cex :
    is_valid_intercom devEnabledOnly = false
    ∧ is_valid_intercom devWrongType = false
    ∧ is_valid_intercom devSetup = true :=
  ⟨rfl, rfl, rfl⟩

/-- C7 amended: a device is judged actionable exactly when its
device_type is intercom or gate and some entry of its capability list has
name open_door and setup identically true; enabled plays no part. -/
theorem open_capability_amended (d : JVal) :
    is_valid_intercom d = true ↔
      ((d.get "device_type" = some (.str DEVICE_TYPE_INTERCOM) ∨
        d.get "device_type" = some (.str DEVICE_TYPE_GATE))
       ∧ ∃ c ∈ getCapabilities d,
          c.get "name" = some (.str "open_door") ∧
          c.get "setup" = some (.bool true)) := by
  rw [← deviceTypeOk_iff]
  unfold is_valid_intercom
  by_cases h : deviceTypeOk d
  · simp [h, List.any_eq_true, capOpenDoorReady_iff]
  · simp [h]

/-- C8 counterexample: two events whose device_id values are distinct (the
number 5 and the string 5) collapse into a single key whose bucket mixes
both, refuting one-key-per-distinct-id and only-events-of-that-id. -/
theorem event_grouping_cex :
    parse_events mixedPayload = [("5", [ev_num, ev_str])]
    ∧ ev_num.get "device_id" = some (.num 5)
    ∧ ev_str.get "device_id" = some (.str "5")
    ∧ JVal.num 5 ≠ JVal.str "5" :=
  ⟨rfl, rfl, rfl, fun h => JVal.noConfusion h⟩

/-- C8 amended: the parser groups events by the string conversion of
device_id — the mapping has exactly one key per distinct string form
occurring among the kept events, and the bucket of a key holds exactly
the events whose converted id equals that key, in payload order. -/
theorem event_grouping_by_string_id (data : JVal) :
    ((parse_events data).map Prod.fst).Nodup
    ∧ ∀ k, findGroup (parse_events data) k =
        (if ((rawEvents data).filter fun e => eventKey e == some k).isEmpty then none
         else some ((rawEvents data).filter fun e => eventKey e == some k)) :=
  ⟨parse_events_keys_nodup data, fun k => parse_events_find data k⟩

/-- C10: every event stored in any bucket is a dictionary with a present
and truthy device_id whose str() conversion is the bucket key (so events
with a missing or falsy device_id are silently omitted and numeric ids
land under string keys), while the device records returned by the device
parser are payload entries kept verbatim, with their original id
values. -/
theorem events_keyed_by_str (data : JVal) :
    (∀ k es, findGroup (parse_events data) k = some es →
        ∀ e ∈ es, e.isObj = true ∧
          ∃ v, e.get "device_id" = some v ∧ truthy v = true ∧ pyStr v = k)
    ∧ (∀ payload ds, parse_devices payload = .ok ds →
        ∀ d ∈ ds, d ∈ rawDevices payload) := by
  constructor
  · intro k es hfind e he
    rw [parse_events_find data k] at hfind
    by_cases hemp : ((rawEvents data).filter fun e => eventKey e == some k).isEmpty
    · rw [if_pos hemp] at hfind
      exact absurd hfind (by simp)
    · rw [if_neg hemp] at hfind
      have hmem := Option.some.inj hfind ▸ he
      have hkey : (eventKey e == some k) = true := (List.mem_filter.mp hmem).2
      exact eventKey_eq_some e k (by simpa using hkey)
  · intro payload ds h d hd
    obtain ⟨hobj, hds⟩ := parse_devices_ok_eq payload ds h
    subst hds
    exact (List.mem_filter.mp hd).1

/-- C10 witness: a numeric device_id of 7 is stored under the string key
7, and the valid device of the synthetic payload is kept verbatim. -/
theorem events_keyed_by_str_w :
    (ev7.isObj = true ∧
      ∃ v, ev7.get "device_id" = some v ∧ truthy v = true ∧ pyStr v = "7")
    ∧ d1 ∈ rawDevices devPayload :=
  ⟨(events_keyed_by_str numPayload).1 "7" [ev7] rfl ev7 (List.mem_singleton.mpr rfl),
   (events_keyed_by_str numPayload).2 devPayload [d1] rfl d1 (List.mem_singleton.mpr rfl)⟩

end Hartkey
